import Mathlib

/-!
Shallow embedding of `src/audio_processing/snowboy_wake_word_detector.py`
(class `SnowboyWakeWordDetector`).

Modelling conventions:
- The controller object is the structure `Detector`; each Python method is a
  Lean function taking and returning a `Detector` (explicit state passing).
- Opaque resource objects (the pyaudio stream, the pyaudio device, the
  snowboy engine) are small structures carrying an id plus boolean behaviour
  flags for the ways the real object can misbehave (raise in `is_active`,
  `stop_stream`, `close`, `terminate`).
- A Python exception escaping a call is modelled by an explicit `raised`
  flag in the call's outcome structure; exceptions caught by a
  `try/except` in the source never surface in the outcome.
- `threading.Thread` is modelled by `detection_thread : Option Bool`
  (`some alive`).  `Thread.join` raises `RuntimeError` exactly when the
  joined thread is the current thread, so `stop` takes a `fromWorker`
  flag: the join step raises iff the thread is present-and-alive and the
  caller is the worker itself (this is what the `finally: self.stop()` in
  `_detection_loop` does).
- A registered callback is opaque; all the code observes about it is
  whether its invocation raises, so a callback is modelled by a `Bool`
  (`true` = raises) and `_trigger_callbacks` returns the trace of what
  happened to each callback, in iteration order.
- The observable side effects of one run (reads, engine calls, resets,
  sleeps, callback traces) are accumulated in a `World` record.
-/

namespace Snowboy

/-- Opaque snowboy `HotwordDetector` handle (`self.detector`). -/
structure EngineH where
  id : Nat
deriving DecidableEq

/-- Opaque `pyaudio.PyAudio` device handle (`self.audio`).
`terminateRaises` models `terminate()` raising (caught in `stop`). -/
structure AudioH where
  id : Nat
  terminateRaises : Bool
deriving DecidableEq

/-- Opaque pyaudio stream handle (`self.stream`), with behaviour flags for
the three teardown calls `is_active`, `stop_stream`, `close`. -/
structure StreamH where
  id : Nat
  isActive : Bool
  isActiveRaises : Bool
  stopRaises : Bool
  closeRaises : Bool
deriving DecidableEq

/-- What happened to one registered callback during `_trigger_callbacks`:
it was invoked with `(path, lab)` and possibly raised (caught and logged),
or the `self.model_paths[index]` lookup raised `IndexError` inside the
per-callback `try` (also caught and logged). -/
inductive CbOutcome
  | invoked (path lab : String) (raised : Bool)
  | lookupError
deriving DecidableEq

/-- The state of a `SnowboyWakeWordDetector` instance: one field per
Python attribute set in `__init__`.  `stream_lock` carries no state and is
omitted.  A callback is modelled by whether it raises when invoked. -/
structure Detector where
  model_paths : List String
  sensitivity : List String
  sample_rate : Nat
  buffer_size : Nat
  on_detected_callbacks : List Bool
  running : Bool
  paused : Bool
  detection_thread : Option Bool
  audio : Option AudioH
  stream : Option StreamH
  detector : Option EngineH
  enabled : Bool
deriving DecidableEq

/-- The `sensitivity` constructor argument: a single number or an explicit
sequence.  Values are carried as their `str()` images, which is all the
code ever computes from them. -/
inductive SensArg
  | num (v : String)
  | seq (vs : List String)
deriving DecidableEq

/-- `__init__`: `model_paths or []`; a scalar sensitivity is broadcast with
`[str(sensitivity)] * len(self.model_paths)`, a sequence is mapped with
`str` elementwise (no length check anywhere); all flags and handles start
cleared; `enabled = bool(snowboydecoder and self.model_paths)`.
`snowboyAvailable` models whether the `import snowboydecoder` at module
load succeeded. -/
def init (snowboyAvailable : Bool) (model_paths : Option (List String))
    (sensitivity : SensArg) (sample_rate buffer_size : Nat) : Detector :=
  let mp := model_paths.getD []
  { model_paths := mp
    sensitivity :=
      match sensitivity with
      | .num v => List.replicate mp.length v
      | .seq vs => vs
    sample_rate := sample_rate
    buffer_size := buffer_size
    on_detected_callbacks := []
    running := false
    paused := false
    detection_thread := none
    audio := none
    stream := none
    detector := none
    enabled := snowboyAvailable && !mp.isEmpty }

/-- Result of `start()`: the returned bool, the post-state, and whether a
new worker thread was spawned by this call. -/
structure StartOutcome where
  ret : Bool
  st : Detector
  spawned : Bool
deriving DecidableEq

/-- `start()`: disabled ⇒ `False` and nothing touched; already running ⇒
`True` and nothing touched; otherwise set the run flag, clear the pause
flag, spawn the worker thread, return `True`. -/
def start (s : Detector) : StartOutcome :=
  if !s.enabled then ⟨false, s, false⟩
  else if s.running then ⟨true, s, false⟩
  else ⟨true, { s with running := true, paused := false,
                       detection_thread := some true }, true⟩

/-- Teardown calls made by `stop` on the resources. -/
inductive Event
  | streamIsActive
  | streamStop
  | streamClose
  | audioTerminate
deriving DecidableEq

/-- The stream block of `stop()`: inside one `try`, call `is_active()`; if
it returns true call `stop_stream()`; then call `close()`.  The first call
that raises aborts the rest of the block; the `except` catches and logs.
Returns the calls that were actually made. -/
def streamTeardown (h : StreamH) : List Event :=
  if h.isActiveRaises then [.streamIsActive]
  else if h.isActive then
    if h.stopRaises then [.streamIsActive, .streamStop]
    else [.streamIsActive, .streamStop, .streamClose]
  else [.streamIsActive, .streamClose]

/-- Result of `stop()`: whether an exception escaped `stop` itself, the
post-state, and the teardown calls made. -/
structure StopOutcome where
  raised : Bool
  st : Detector
  events : List Event
deriving DecidableEq

/-- `stop()`: set `running = False`; if the worker thread exists and is
alive, `join(timeout=1.0)` — which raises `RuntimeError` when the caller
IS the worker thread (`fromWorker`), aborting the rest of `stop`;
otherwise tear down the stream (exceptions caught), `terminate()` the
device (exceptions caught), and null both `stream` and `audio`.
`self.detector` is never cleared. -/
def stop (fromWorker : Bool) (s : Detector) : StopOutcome :=
  let s1 := { s with running := false }
  if s1.detection_thread.getD false && fromWorker then
    ⟨true, s1, []⟩
  else
    let ev1 :=
      match s1.stream with
      | some h => streamTeardown h
      | none => []
    let ev2 :=
      match s1.audio with
      | some _ => [Event.audioTerminate]
      | none => []
    ⟨false, { s1 with stream := none, audio := none }, ev1 ++ ev2⟩

/-- `pause()`: only when running and not yet paused, set the pause flag. -/
def pause (s : Detector) : Detector :=
  if s.running && !s.paused then { s with paused := true } else s

/-- `resume()`: only when running and paused, clear the pause flag. -/
def resume (s : Detector) : Detector :=
  if s.running && s.paused then { s with paused := false } else s

/-- `is_running()`: `self.running and not self.paused`. -/
def is_running (s : Detector) : Bool :=
  s.running && !s.paused

/-- `on_detected(callback)`: append to the callback list. -/
def on_detected (s : Detector) (cbRaises : Bool) : Detector :=
  { s with on_detected_callbacks := s.on_detected_callbacks ++ [cbRaises] }

/-- The spec's abstract controller state, derived from the two flags (the
code keeps no separate state field; Idle and Stopped are
indistinguishable, both have `running = False`). -/
inductive Phase
  | Running
  | Paused
  | NotRunning
deriving DecidableEq

/-- Abstraction of the flag pair to the spec's state machine. -/
def phase (s : Detector) : Phase :=
  if s.running then (if s.paused then .Paused else .Running) else .NotRunning

/-- The label string `f"唤醒词索引: {index}"` passed to every callback. -/
def label (index : Nat) : String :=
  "唤醒词索引: " ++ toString index

/-- `_trigger_callbacks(index)`: for each registered callback in order,
inside its own `try`, look up `self.model_paths[index]` (IndexError if out
of range) and invoke the callback with `(path, label)`; any exception is
caught and logged, so every callback gets its turn and nothing
propagates (the function is total). -/
def triggerCallbacks (model_paths : List String) (cbs : List Bool)
    (index : Nat) : List CbOutcome :=
  cbs.map fun raises =>
    match model_paths.get? index with
    | none => .lookupError
    | some p => .invoked p (label index) raises

/-- Observable side effects of one worker run: how many times
`stream.read`, `RunDetection`, `Reset` and `time.sleep` were called, and
the callback trace of each processed match. -/
structure World where
  readCalls : Nat
  detectCalls : Nat
  resetCalls : Nat
  sleepCalls : Nat
  cbTrace : List (List CbOutcome)
deriving DecidableEq

/-- The world before any iteration. -/
def World.empty : World := ⟨0, 0, 0, 0, []⟩

/-- The environment's behaviour during one non-paused loop iteration:
`stream.read` raises, or read succeeds but `RunDetection` raises, or both
succeed and `RunDetection` returns the integer `ans`. -/
inductive IterBehavior
  | readRaises
  | detectRaises
  | frame (ans : Int)
deriving DecidableEq

/-- How one iteration of `while self.running:` ended. -/
inductive IterSignal
  | exitLoop
  | nextIter
  | fatal
deriving DecidableEq

/-- One iteration of the `while self.running:` loop body.  The run flag is
checked first; while paused the body only sleeps 0.1s and continues; else
it reads one frame (`exception_on_overflow=False`, so overflow never
raises), feeds it to `RunDetection`, and when the result is `> 0`
processes a match at index `ans - 1` (trigger callbacks, then `Reset()`).
A raise from read or `RunDetection` escapes the loop (`fatal`). -/
def loopIter (s : Detector) (beh : IterBehavior) (w : World) :
    IterSignal × Detector × World :=
  if !s.running then (.exitLoop, s, w)
  else if s.paused then
    (.nextIter, s, { w with sleepCalls := w.sleepCalls + 1 })
  else
    match beh with
    | .readRaises => (.fatal, s, { w with readCalls := w.readCalls + 1 })
    | .detectRaises =>
        (.fatal, s, { w with readCalls := w.readCalls + 1,
                             detectCalls := w.detectCalls + 1 })
    | .frame ans =>
        let w1 := { w with readCalls := w.readCalls + 1,
                           detectCalls := w.detectCalls + 1 }
        if ans > 0 then
          (.nextIter, s,
            { w1 with
              cbTrace := w1.cbTrace ++
                [triggerCallbacks s.model_paths s.on_detected_callbacks
                  (ans - 1).toNat]
              resetCalls := w1.resetCalls + 1 })
        else (.nextIter, s, w1)

/-- Iterate the loop body over a finite script of environment behaviours.
Returns the state, the world, and whether the loop was left by an
exception (`fatal`). -/
def runIters : List IterBehavior → Detector → World →
    Detector × World × Bool
  | [], s, w => (s, w, false)
  | b :: rest, s, w =>
      match loopIter s b w with
      | (.exitLoop, s1, w1) => (s1, w1, false)
      | (.nextIter, s1, w1) => runIters rest s1 w1
      | (.fatal, s1, w1) => (s1, w1, true)

/-- Overall outcome of one worker run body. -/
structure RunOutcome where
  st : Detector
  w : World
  stopRaised : Bool
  teardownEvents : List Event
deriving DecidableEq

/-- `_detection_loop()` in the case where setup succeeds (snowboydecoder
present; `HotwordDetector`, `pyaudio.PyAudio()` and `audio.open` all
return handles): store the three handles, run the loop over the script,
then — whether the loop exited by signal or by exception — the `finally`
block calls `self.stop()` FROM THE WORKER THREAD. -/
def detectionLoopRun (s : Detector) (eng : EngineH) (aud : AudioH)
    (h : StreamH) (script : List IterBehavior) : RunOutcome :=
  let s3 := { s with detector := some eng, audio := some aud,
                     stream := some h }
  let out := runIters script s3 World.empty
  let r := stop true out.1
  ⟨r.st, out.2.1, r.raised, r.events⟩

/-- A concrete stream handle used in examples (active, no teardown call
raises). -/
def exStream : StreamH := ⟨1, true, false, false, false⟩

/-- A concrete device handle used in examples. -/
def exAudio : AudioH := ⟨0, false⟩

/-- A concrete engine handle used in examples. -/
def exEngine : EngineH := ⟨2⟩

/-- A concrete controller in the Running phase, with its worker alive and
all three resource handles set; one of its three callbacks raises. -/
def exActive : Detector :=
  { model_paths := ["a", "b"]
    sensitivity := ["0.5", "0.5"]
    sample_rate := 16000
    buffer_size := 1024
    on_detected_callbacks := [false, true, false]
    running := true
    paused := false
    detection_thread := some true
    audio := some exAudio
    stream := some exStream
    detector := some exEngine
    enabled := true }

/-- `exActive` with the pause flag set (the Paused phase). -/
def exPausedState : Detector := { exActive with paused := true }

/-- A freshly constructed, enabled controller (nothing started yet). -/
def exIdle : Detector := init true (some ["m"]) (.num "0.5") 16000 1024

/-- The worker run used for claim C2: setup succeeds, then the first
`stream.read` raises (a fatal mid-loop read error), so the loop exits by
exception and the `finally` block calls `self.stop()` from the worker
thread. -/
def c2run : RunOutcome :=
  detectionLoopRun (start exIdle).st exEngine exAudio exStream [.readRaises]

/-- Claim C1 (counterexample): the claim as stated is false on the code in
two places.  `stop()` never assigns `self.detector = None`, so after a
`stop()` on a state holding an engine handle the engine handle is still
non-null; and `stop()` called from the worker thread (as the loop's
`finally` does) raises `RuntimeError` from `join`, so `stop` is not
raise-free from every calling context. -/
theorem C1_counterexample :
    (stop false exActive).st.detector ≠ none ∧
    (stop true exActive).raised = true := by
  decide

/-- Claim C1 (amended): for every controller state, `stop()` invoked from
a non-worker thread never raises, and on return the run flag is cleared
(state Stopped, `is_running` false) and the audio stream handle and the
audio device handle are both null; the engine handle is left exactly as it
was, not cleared. -/
theorem C1_stop_idempotent_from_caller (s : Detector) :
    (stop false s).raised = false ∧
    (stop false s).st.running = false ∧
    (stop false s).st.stream = none ∧
    (stop false s).st.audio = none ∧
    (stop false s).st.detector = s.detector := by
  simp [stop]

/-- Claim C2: after a fatal mid-loop read error, `is_running()` does become
false (the run flag is cleared by `stop`), but the worker's `finally`
calls `self.stop()` from the worker thread itself, whose
`detection_thread.join(timeout=1.0)` raises `RuntimeError` ("cannot join
current thread") before any teardown code runs: no `close`/`terminate`
call is made and both resource handles remain set, contradicting the
claimed release.  This theorem evaluates the code at the failing input. -/
theorem C2_fatal_read_error_leaks_handles :
    c2run.stopRaised = true ∧
    c2run.st.stream ≠ none ∧
    c2run.st.audio ≠ none ∧
    c2run.teardownEvents = [] ∧
    is_running c2run.st = false := by
  decide

/-- Claim C3 (counterexample): construction with `model_paths` of length 2
and an explicit sensitivity sequence of length 1 is NOT rejected — it
produces an enabled controller whose sensitivity list length differs from
`len(model_paths)`. -/
theorem C3_counterexample :
    (init true (some ["a", "b"]) (.seq ["0.5"]) 16000 1024).sensitivity.length = 1 ∧
    (init true (some ["a", "b"]) (.seq ["0.5"]) 16000 1024).model_paths.length = 2 ∧
    (init true (some ["a", "b"]) (.seq ["0.5"]) 16000 1024).enabled = true := by
  decide

/-- Claim C3 (amended): construction performs no length validation at all:
with an explicit sensitivity sequence it always succeeds and stores the
sequence exactly as given, whatever its length relative to
`model_paths`. -/
theorem C3_no_length_validation (b : Bool) (mp vs : List String)
    (sr bs : Nat) :
    (init b (some mp) (.seq vs) sr bs).sensitivity = vs ∧
    (init b (some mp) (.seq vs) sr bs).model_paths = mp := by
  simp [init]

/-- Claim C4: for every construction, `enabled` equals (library available
AND `model_paths` non-empty); and for every state with `enabled = false`,
`start()` returns false, leaves the state untouched, and spawns no
worker. -/
theorem C4_enabled_iff_and_disabled_start_noop (b : Bool)
    (mp : Option (List String)) (sv : SensArg) (sr bs : Nat)
    (s : Detector) (h : s.enabled = false) :
    (init b mp sv sr bs).enabled = (b && !(mp.getD []).isEmpty) ∧
    start s = ⟨false, s, false⟩ := by
  constructor
  · simp [init]
  · simp [start, h]

/-- Claim C4 witness at concrete inputs. -/
theorem C4_witness :
    (init true (some []) (.num "0.5") 16000 1024).enabled =
      (true && !(((some []) : Option (List String)).getD []).isEmpty) ∧
    start (init false (some ["m"]) (.num "0.5") 16000 1024) =
      ⟨false, init false (some ["m"]) (.num "0.5") 16000 1024, false⟩ :=
  C4_enabled_iff_and_disabled_start_noop true (some []) (.num "0.5") 16000 1024
    (init false (some ["m"]) (.num "0.5") 16000 1024) (by decide)

/-- Claim C5: for every enabled controller already in the Running or
Paused phase, `start()` returns true, changes nothing, and spawns no
second worker. -/
theorem C5_start_idempotent_when_active (s : Detector)
    (he : s.enabled = true)
    (hp : phase s = .Running ∨ phase s = .Paused) :
    start s = ⟨true, s, false⟩ := by
  cases hr : s.running with
  | false => simp [phase, hr] at hp
  | true => simp [start, he, hr]

/-- Claim C5 witness at a concrete Running controller. -/
theorem C5_witness : start exActive = ⟨true, exActive, false⟩ :=
  C5_start_idempotent_when_active exActive (by decide) (Or.inl (by decide))

/-- Claim C6: for a match at an in-range index `i`, `_trigger_callbacks`
produces exactly one outcome per registered callback, in registration
order; each callback is invoked with `(model_paths[i], label i)`; an
invocation that raises is recorded (caught and logged) without removing or
reordering any later callback's invocation; and the label contains the
index (it is the fixed prefix followed by `toString i`). -/
theorem C6_trigger_all_in_order (mp : List String) (cbs : List Bool)
    (i : Nat) (h : i < mp.length) :
    triggerCallbacks mp cbs i =
      cbs.map (fun raises =>
        CbOutcome.invoked (mp.get ⟨i, h⟩) (label i) raises) ∧
    label i = "唤醒词索引: " ++ toString i := by
  constructor
  · simp [triggerCallbacks, List.get?_eq_get h, List.getElem?_eq_getElem h]
  · rfl

/-- Claim C6 witness: three callbacks, the middle one raising, at match
index 1 of two model paths. -/
theorem C6_witness :
    triggerCallbacks ["a", "b"] [false, true, false] 1 =
      [false, true, false].map (fun raises =>
        CbOutcome.invoked (["a", "b"].get ⟨1, by decide⟩) (label 1) raises) ∧
    label 1 = "唤醒词索引: " ++ toString 1 :=
  C6_trigger_all_in_order ["a", "b"] [false, true, false] 1 (by decide)

/-- Claim C7: `pause` changes nothing unless the phase is Running,
`resume` changes nothing unless the phase is Paused, and a `pause`
immediately followed by `resume` leaves the stream handle, the device
handle, the engine handle and the worker thread exactly as they were (same
instances, never released or reopened) with the run flag unchanged. -/
theorem C7_pause_resume_noop_and_preserve (s : Detector) :
    (phase s ≠ .Running → pause s = s) ∧
    (phase s ≠ .Paused → resume s = s) ∧
    (resume (pause s)).stream = s.stream ∧
    (resume (pause s)).audio = s.audio ∧
    (resume (pause s)).detector = s.detector ∧
    (resume (pause s)).detection_thread = s.detection_thread ∧
    (resume (pause s)).running = s.running := by
  rcases s with ⟨mp, sv, sr, bs, cbs, running, paused, th, au, st, det, en⟩
  cases running <;> cases paused <;> simp [pause, resume, phase]

/-- Claim C7 witness: `pause` on a non-running controller is the identity,
and `pause` then `resume` on a Running controller preserves the stream
handle. -/
theorem C7_witness :
    pause exIdle = exIdle ∧ (resume (pause exActive)).stream = exActive.stream :=
  ⟨(C7_pause_resume_noop_and_preserve exIdle).1 (by decide),
   (C7_pause_resume_noop_and_preserve exActive).2.2.1⟩

/-- Claim C8: every loop iteration executed while the pause flag is set
only increments the sleep counter: no read call and no engine call is
made, the state is unchanged, and the loop continues — so the audio
source's read count never increases while Paused. -/
theorem C8_paused_iteration_reads_nothing (s : Detector)
    (beh : IterBehavior) (w : World) (hr : s.running = true)
    (hp : s.paused = true) :
    loopIter s beh w =
      (.nextIter, s, { w with sleepCalls := w.sleepCalls + 1 }) ∧
    (loopIter s beh w).2.2.readCalls = w.readCalls ∧
    (loopIter s beh w).2.2.detectCalls = w.detectCalls := by
  have h1 : loopIter s beh w =
      (.nextIter, s, { w with sleepCalls := w.sleepCalls + 1 }) := by
    simp [loopIter, hr, hp]
  exact ⟨h1, by rw [h1], by rw [h1]⟩

/-- Claim C8 witness at a concrete Paused controller. -/
theorem C8_witness :
    loopIter exPausedState .readRaises World.empty =
      (.nextIter, exPausedState,
        { World.empty with sleepCalls := World.empty.sleepCalls + 1 }) ∧
    (loopIter exPausedState .readRaises World.empty).2.2.readCalls =
      World.empty.readCalls ∧
    (loopIter exPausedState .readRaises World.empty).2.2.detectCalls =
      World.empty.detectCalls :=
  C8_paused_iteration_reads_nothing exPausedState .readRaises World.empty
    rfl rfl

/-- Claim C9: in a non-paused running iteration where `RunDetection`
returns `ans ≤ 0` (including negative error codes), no callback fires, no
`Reset` happens, and the loop just continues; a match is processed exactly
when `ans > 0`, triggering the callbacks at index `ans - 1` and resetting
the engine once. -/
theorem C9_match_only_when_positive (s : Detector) (w : World) (ans : Int)
    (hr : s.running = true) (hp : s.paused = false) :
    (ans ≤ 0 →
      loopIter s (.frame ans) w =
        (.nextIter, s, { w with readCalls := w.readCalls + 1,
                                detectCalls := w.detectCalls + 1 })) ∧
    (0 < ans →
      loopIter s (.frame ans) w =
        (.nextIter, s,
          { w with readCalls := w.readCalls + 1,
                   detectCalls := w.detectCalls + 1,
                   resetCalls := w.resetCalls + 1,
                   cbTrace := w.cbTrace ++
                     [triggerCallbacks s.model_paths s.on_detected_callbacks
                       (ans - 1).toNat] })) := by
  constructor
  · intro h
    have hn : ¬ (ans > 0) := by omega
    simp [loopIter, hr, hp, hn]
  · intro h
    simp [loopIter, hr, hp, h]

/-- Claim C9 witness: the engine returning -2 causes no callback and no
reset; returning 2 processes a match at index 1. -/
theorem C9_witness :
    loopIter exActive (.frame (-2)) World.empty =
      (.nextIter, exActive,
        { World.empty with readCalls := World.empty.readCalls + 1,
                           detectCalls := World.empty.detectCalls + 1 }) ∧
    loopIter exActive (.frame 2) World.empty =
      (.nextIter, exActive,
        { World.empty with
          readCalls := World.empty.readCalls + 1,
          detectCalls := World.empty.detectCalls + 1,
          resetCalls := World.empty.resetCalls + 1,
          cbTrace := World.empty.cbTrace ++
            [triggerCallbacks exActive.model_paths
              exActive.on_detected_callbacks (((2 : Int)) - 1).toNat] }) :=
  ⟨(C9_match_only_when_positive exActive World.empty (-2) rfl rfl).1 (by decide),
   (C9_match_only_when_positive exActive World.empty 2 rfl rfl).2 (by decide)⟩

/-- Claim C10: for a match index at or beyond the end of `model_paths`,
the `model_paths[index]` lookup raises inside each callback's own
`try/except`, so every callback iteration records a caught lookup error —
the trigger still returns one outcome per callback and nothing propagates
out of `_trigger_callbacks`. -/
theorem C10_out_of_range_index_isolated (mp : List String)
    (cbs : List Bool) (i : Nat) (h : mp.length ≤ i) :
    triggerCallbacks mp cbs i = cbs.map (fun _ => CbOutcome.lookupError) ∧
    (triggerCallbacks mp cbs i).length = cbs.length := by
  constructor
  · simp [triggerCallbacks, List.getElem?_eq_none h]
  · simp [triggerCallbacks]

/-- Claim C10 witness: index 5 into a single-path list with two
callbacks. -/
theorem C10_witness :
    triggerCallbacks ["a"] [true, false] 5 =
      [true, false].map (fun _ => CbOutcome.lookupError) ∧
    (triggerCallbacks ["a"] [true, false] 5).length = [true, false].length :=
  C10_out_of_range_index_isolated ["a"] [true, false] 5 (by decide)

end Snowboy
